import Mathlib

set_option linter.unusedVariables false

/-!
Shallow embedding of the CEP-to-weather pipeline (service-a edge validator
and service-b lookup orchestrator).  Network effects are made explicit:
every outbound HTTP call is a parameter describing its outcome, every
environment variable is a parameter, and JSON decoding outcomes are
`Option` values.  Temperatures (Go `float64`) are modelled as exact
rationals; the arithmetic the code performs on them is the literal
formulas `t * 1.8 + 32` and `t + 273`.
-/

namespace CepWeather

/-- Request payload carrying the CEP string, as decoded by `json.Unmarshal`
into `RequestPayload` / `models.CEPRequest` (a single `cep` field). -/
structure CEPRequest where
  cep : String
deriving DecidableEq

/-- Outcome of reading and JSON-decoding the request body in a handler:
`ioutil.ReadAll` may fail (`readError`), `json.Unmarshal` may fail
(`malformed`), or a payload with a `cep` field is obtained (absent field
decodes to the empty string, so every successful decode is `payload`). -/
inductive Body where
  | readError
  | malformed
  | payload (cep : String)
deriving DecidableEq

/-- Outcome of one outbound HTTP GET as the code observes it:
`transportError` covers request-construction and `client.Do` failures
(both return the error to the caller); otherwise a status code arrives
together with what decoding the body into the expected shape would
yield (`none` = decoder error). -/
inductive Fetch (α : Type) where
  | transportError
  | response (status : Nat) (decoded : Option α)
deriving DecidableEq

/-- Shape decoded from the City Resolver (ViaCEP) body.  The modular
`services.GetCityByCEP` reads an `Erro` flag and a `Localidade` field;
the monolithic `main.go` declares a struct with only the `localidade`
key (its `Cidade` field) and therefore ignores the `erro` key of the
same wire body.  Both are fed from this one wire record, the monolith
projecting `localidade`. -/
structure ViaCEPResponse where
  erro : Bool
  localidade : String
deriving DecidableEq

/-- Nested `current` object of the Temperature Provider body. -/
structure Current where
  tempC : Rat
deriving DecidableEq

/-- Shape decoded from the Temperature Provider (WeatherAPI) body. -/
structure WeatherAPIResponse where
  current : Current
deriving DecidableEq

/-- Success response body of the orchestrator (JSON object with city and
the three temperatures). -/
structure WeatherResponse where
  city : String
  tempC : Rat
  tempF : Rat
  tempK : Rat
deriving DecidableEq

/-- Body written by the orchestrator: either plain text (error paths,
`http.Error` adds a trailing newline, `w.Write` does not) or the encoded
`WeatherResponse`. -/
inductive BBody where
  | text (s : String)
  | weather (w : WeatherResponse)
deriving DecidableEq

/-- HTTP response of the orchestrator (service-b). -/
structure BResp where
  status : Nat
  body : BBody
deriving DecidableEq

/-- HTTP response of the edge validator (service-a); its bodies are the
bytes it writes, modelled as strings. -/
structure AResp where
  status : Nat
  body : String
deriving DecidableEq

/-- Process-wide configuration of service-b read from the environment:
`SIMULATE_CEP_NOT_FOUND == "true"`, `TEST_MODE == "true"`, and
`WEATHER_API_KEY` (`os.Getenv` yields `""` when unset). -/
structure Config where
  simulateCepNotFound : Bool
  testMode : Bool
  weatherApiKey : String
deriving DecidableEq

/-- Validation `regexp.MustCompile("^\\d{8}$").MatchString cep`: the string
is exactly eight runes, each an ASCII decimal digit. -/
def validCEP (cep : String) : Bool :=
  cep.data.length == 8 && cep.data.all Char.isDigit

/-- Substitution table of `removeAccents`, in source order.  Keys are the
accented characters, values their unaccented counterparts. -/
def accentTable : List (Char × Char) :=
  [('á', 'a'), ('à', 'a'), ('ã', 'a'), ('â', 'a'), ('ä', 'a'),
   ('é', 'e'), ('è', 'e'), ('ê', 'e'), ('ë', 'e'),
   ('í', 'i'), ('ì', 'i'), ('î', 'i'), ('ï', 'i'),
   ('ó', 'o'), ('ò', 'o'), ('õ', 'o'), ('ô', 'o'), ('ö', 'o'),
   ('ú', 'u'), ('ù', 'u'), ('û', 'u'), ('ü', 'u'),
   ('ç', 'c'),
   ('Á', 'A'), ('À', 'A'), ('Ã', 'A'), ('Â', 'A'), ('Ä', 'A'),
   ('É', 'E'), ('È', 'E'), ('Ê', 'E'), ('Ë', 'E'),
   ('Í', 'I'), ('Ì', 'I'), ('Î', 'I'), ('Ï', 'I'),
   ('Ó', 'O'), ('Ò', 'O'), ('Õ', 'O'), ('Ô', 'O'), ('Ö', 'O'),
   ('Ú', 'U'), ('Ù', 'U'), ('Û', 'U'), ('Ü', 'U'),
   ('Ç', 'C')]

/-- Per-character substitution of the table (identity off the table). -/
def subChar (c : Char) : Char :=
  (List.lookup c accentTable).getD c

/-- The `removeAccents` of both service-b implementations (identical
bodies).  The source folds `strings.Replace(result, from, to, -1)` over a
Go map of the table entries in unspecified iteration order; since each
key is a single character, the keys are pairwise distinct, and no value
occurs among the keys, every iteration order denotes the same
per-character substitution, which is taken as the definition. -/
def removeAccents (texto : String) : String :=
  String.mk (texto.data.map subChar)

/-- Modular `services.GetCityByCEP`: simulated-not-found short-circuit,
then the ViaCEP fetch; non-200 status, decode failure, the `Erro` flag,
and an empty `Localidade` each yield an error; otherwise the city.  The
URL built from `cep` is abstracted into the `resolver` outcome. -/
def GetCityByCEP (simulateCepNotFound : Bool) (cep : String)
    (resolver : Fetch ViaCEPResponse) : Except String String :=
  if simulateCepNotFound then .error "CEP not found"
  else
    match resolver with
    | .transportError => .error "transport error"
    | .response status decoded =>
      if status != 200 then .error "CEP not found"
      else
        match decoded with
        | none => .error "decode error"
        | some r =>
          if r.erro then .error "CEP not found"
          else if r.localidade == "" then .error "City not found"
          else .ok r.localidade

/-- Modular `services.GetTemperature`: in test mode the constant 25.0 is
returned before anything else; otherwise an empty `WEATHER_API_KEY`,
transport failure, non-200 status, or decode failure each yield an
error, else the decoded `current.temp_c`.  The URL built from the
API key and `removeAccents cidade` is abstracted into `provider`. -/
def GetTemperature (testMode : Bool) (apiKey : String) (cidade : String)
    (provider : Fetch WeatherAPIResponse) : Except String Rat :=
  if testMode then .ok 25
  else if apiKey == "" then .error "WEATHER_API_KEY not set"
  else
    match provider with
    | .transportError => .error "transport error"
    | .response status decoded =>
      if status != 200 then .error ("Error getting weather data: status " ++ toString status)
      else
        match decoded with
        | none => .error "decode error"
        | some r => .ok r.current.tempC

/-- Modular `handlers.HandleWeatherRequest` (service-b): method check,
body read, JSON decode, CEP shape check, then the two stages with their
error-to-status mapping, then the unit conversions and the success
body. -/
def HandleWeatherRequest (cfg : Config) (method : String) (body : Body)
    (resolver : Fetch ViaCEPResponse) (provider : Fetch WeatherAPIResponse) : BResp :=
  if method != "POST" then ⟨405, .text "Method not allowed\n"⟩
  else
    match body with
    | .readError => ⟨400, .text "Error reading request body\n"⟩
    | .malformed => ⟨400, .text "invalid request format"⟩
    | .payload cep =>
      if !(validCEP cep) then ⟨422, .text "invalid zipcode"⟩
      else
        match GetCityByCEP cfg.simulateCepNotFound cep resolver with
        | .error _ => ⟨404, .text "can not find zipcode"⟩
        | .ok cidade =>
          match GetTemperature cfg.testMode cfg.weatherApiKey cidade provider with
          | .error _ => ⟨500, .text "Error getting temperature\n"⟩
          | .ok tempC => ⟨200, .weather ⟨cidade, tempC, tempC * 1.8 + 32, tempC + 273⟩⟩

/-- Monolithic `getCityByCEP` of service-b `main.go`: same pipeline but
its response struct carries only the `localidade` key, so the `erro`
flag of the wire body is ignored, and the empty-city error message is
"CEP not found". -/
def getCityByCEP (simulateCepNotFound : Bool) (cep : String)
    (resolver : Fetch ViaCEPResponse) : Except String String :=
  if simulateCepNotFound then .error "CEP not found"
  else
    match resolver with
    | .transportError => .error "transport error"
    | .response status decoded =>
      if status != 200 then .error "CEP not found"
      else
        match decoded with
        | none => .error "decode error"
        | some r =>
          if r.localidade == "" then .error "CEP not found"
          else .ok r.localidade

/-- Monolithic `getTemperature` of service-b `main.go`; its body is the
same as the modular `GetTemperature`. -/
def getTemperature (testMode : Bool) (apiKey : String) (cidade : String)
    (provider : Fetch WeatherAPIResponse) : Except String Rat :=
  if testMode then .ok 25
  else if apiKey == "" then .error "WEATHER_API_KEY not set"
  else
    match provider with
    | .transportError => .error "transport error"
    | .response status decoded =>
      if status != 200 then .error ("Error getting weather data: status " ++ toString status)
      else
        match decoded with
        | none => .error "decode error"
        | some r => .ok r.current.tempC

/-- Monolithic `handleWeatherRequest` of service-b `main.go`: identical
branch structure and response texts to the modular handler, calling the
monolithic stage functions. -/
def handleWeatherRequest (cfg : Config) (method : String) (body : Body)
    (resolver : Fetch ViaCEPResponse) (provider : Fetch WeatherAPIResponse) : BResp :=
  if method != "POST" then ⟨405, .text "Method not allowed\n"⟩
  else
    match body with
    | .readError => ⟨400, .text "Error reading request body\n"⟩
    | .malformed => ⟨400, .text "invalid request format"⟩
    | .payload cep =>
      if !(validCEP cep) then ⟨422, .text "invalid zipcode"⟩
      else
        match getCityByCEP cfg.simulateCepNotFound cep resolver with
        | .error _ => ⟨404, .text "can not find zipcode"⟩
        | .ok cidade =>
          match getTemperature cfg.testMode cfg.weatherApiKey cidade provider with
          | .error _ => ⟨500, .text "Error getting temperature\n"⟩
          | .ok tempC => ⟨200, .weather ⟨cidade, tempC, tempC * 1.8 + 32, tempC + 273⟩⟩

/-- Outcome of the edge validator's call to service-b
(`sendRequestToServiceB`): a transport failure carrying the error text
that `fmt.Sprintf("Error calling Service B: %v", err)` will embed, or a
response whose status and raw body bytes the edge then relays. -/
inductive BCallResult where
  | transportError (msg : String)
  | response (status : Nat) (respBody : String)
deriving DecidableEq

/-- Monolithic `handleRequest` of service-a: method check, body read,
JSON decode, CEP shape check, then the call to service-b; a transport
failure becomes a 500 whose body embeds the error text, and any received
response is relayed verbatim (`w.WriteHeader(resp.StatusCode)` then the
body bytes).  Reading the relayed body is assumed to succeed. -/
def handleRequest (method : String) (body : Body) (callB : BCallResult) : AResp :=
  if method != "POST" then ⟨405, "Method not allowed\n"⟩
  else
    match body with
    | .readError => ⟨400, "Error reading request body\n"⟩
    | .malformed => ⟨400, "Invalid JSON format\n"⟩
    | .payload cep =>
      if !(validCEP cep) then ⟨422, "invalid zipcode"⟩
      else
        match callB with
        | .transportError msg => ⟨500, "Error calling Service B: " ++ msg ++ "\n"⟩
        | .response status respBody => ⟨status, respBody⟩


theorem mem_of_lookup_eq_some {l : List (Char × Char)} {c t : Char}
    (h : List.lookup c l = some t) : (c, t) ∈ l := by
  induction l with
  | nil => simp [List.lookup] at h
  | cons p tl ih =>
    obtain ⟨k, v⟩ := p
    by_cases hc : c = k
    · subst hc
      simp [List.lookup] at h
      subst h
      exact List.mem_cons_self _ _
    · have hb : (c == k) = false := beq_false_of_ne hc
      simp only [List.lookup, hb] at h
      exact List.mem_cons_of_mem _ (ih h)

theorem accentTable_value_not_key :
    ∀ p ∈ accentTable, List.lookup p.2 accentTable = none := by decide

theorem subChar_idem (c : Char) : subChar (subChar c) = subChar c := by
  unfold subChar
  cases h : List.lookup c accentTable with
  | none => simp [h]
  | some t =>
    simp only [Option.getD_some]
    have ht : (c, t) ∈ accentTable := mem_of_lookup_eq_some h
    have hn : List.lookup t accentTable = none := accentTable_value_not_key (c, t) ht
    simp [hn]

/-- Claim C5: removeAccents is total and idempotent; every character is
either replaced by its fixed table counterpart or left unchanged, and
"São Paulo" maps to "Sao Paulo". -/
theorem c5_removeAccents_idempotent_total :
    (∀ s : String, removeAccents (removeAccents s) = removeAccents s) ∧
    (∀ c : Char, (c, subChar c) ∈ accentTable ∨ subChar c = c) ∧
    removeAccents "São Paulo" = "Sao Paulo" := by
  refine ⟨?_, ?_, by decide⟩
  · intro s
    unfold removeAccents
    apply congrArg String.mk
    show (s.data.map subChar).map subChar = s.data.map subChar
    rw [List.map_map]
    exact List.map_congr_left fun c _ => subChar_idem c
  · intro c
    unfold subChar
    cases h : List.lookup c accentTable with
    | none => right; simp
    | some t =>
      left
      simpa using mem_of_lookup_eq_some h

/-- Claim C1: a request body whose cep does not match eight ASCII digits
is answered 422 with exact body "invalid zipcode" by the edge validator
and by both orchestrator implementations, for every outcome of the
external calls (so no external lookup influences the response). -/
theorem c1_invalid_cep_rejected (cep : String) (h : validCEP cep = false) :
    (∀ callB : BCallResult,
        handleRequest "POST" (Body.payload cep) callB = ⟨422, "invalid zipcode"⟩) ∧
    (∀ (cfg : Config) (resolver : Fetch ViaCEPResponse) (provider : Fetch WeatherAPIResponse),
        HandleWeatherRequest cfg "POST" (Body.payload cep) resolver provider =
          ⟨422, BBody.text "invalid zipcode"⟩) ∧
    (∀ (cfg : Config) (resolver : Fetch ViaCEPResponse) (provider : Fetch WeatherAPIResponse),
        handleWeatherRequest cfg "POST" (Body.payload cep) resolver provider =
          ⟨422, BBody.text "invalid zipcode"⟩) := by
  refine ⟨fun callB => ?_, fun cfg resolver provider => ?_, fun cfg resolver provider => ?_⟩
  · simp [handleRequest, h]
  · simp [HandleWeatherRequest, h]
  · simp [handleWeatherRequest, h]

/-- Witness for C1 at the concrete invalid cep "123". -/
theorem c1_witness :
    handleRequest "POST" (Body.payload "123") (BCallResult.transportError "x") =
      ⟨422, "invalid zipcode"⟩ :=
  (c1_invalid_cep_rejected "123" (by decide)).1 (BCallResult.transportError "x")

/-- Claim C9: a non-POST request to either service's main endpoint is
answered 405, for every body and every outcome of the external calls. -/
theorem c9_non_post_405 (method : String) (h : method ≠ "POST") :
    (∀ (body : Body) (callB : BCallResult),
        handleRequest method body callB = ⟨405, "Method not allowed\n"⟩) ∧
    (∀ (cfg : Config) (body : Body) (resolver : Fetch ViaCEPResponse)
        (provider : Fetch WeatherAPIResponse),
        HandleWeatherRequest cfg method body resolver provider =
          ⟨405, BBody.text "Method not allowed\n"⟩) ∧
    (∀ (cfg : Config) (body : Body) (resolver : Fetch ViaCEPResponse)
        (provider : Fetch WeatherAPIResponse),
        handleWeatherRequest cfg method body resolver provider =
          ⟨405, BBody.text "Method not allowed\n"⟩) := by
  have hb : (method != "POST") = true := by simpa [bne_iff_ne] using h
  exact ⟨fun body callB => by simp [handleRequest, hb],
         fun cfg body resolver provider => by simp [HandleWeatherRequest, hb],
         fun cfg body resolver provider => by simp [handleWeatherRequest, hb]⟩

/-- Witness for C9 at the concrete method "GET". -/
theorem c9_witness :
    handleRequest "GET" (Body.payload "12345678") (BCallResult.response 200 "ok") =
      ⟨405, "Method not allowed\n"⟩ :=
  (c9_non_post_405 "GET" (by decide)).1 (Body.payload "12345678") (BCallResult.response 200 "ok")

/-- Counterexample to claim C8: the edge validator's transport-failure
response is not generic (two different transport error texts give two
different bodies, and the body embeds the error text), and a non-success
orchestrator status other than 404/422 (here 503) is relayed, not mapped
to 500. -/
theorem c8_counterexample :
    (¬ ∀ (m₁ m₂ : String),
        handleRequest "POST" (Body.payload "12345678") (BCallResult.transportError m₁) =
          handleRequest "POST" (Body.payload "12345678") (BCallResult.transportError m₂)) ∧
    (handleRequest "POST" (Body.payload "12345678")
        (BCallResult.transportError "connection refused")).body =
      "Error calling Service B: connection refused\n" ∧
    (handleRequest "POST" (Body.payload "12345678") (BCallResult.response 503 "boom")).status =
      503 := by
  refine ⟨fun hall => absurd (hall "a" "b") (by decide), by decide, by decide⟩

/-- Amended claim C8: on a transport failure toward the orchestrator the
edge validator answers 500 with body "Error calling Service B: " followed
by the error text and a newline (the cause is included, not hidden); any
completed orchestrator response, whatever its status, is relayed verbatim. -/
theorem c8_amended (cep : String) (hcep : validCEP cep = true) :
    (∀ msg : String,
        handleRequest "POST" (Body.payload cep) (BCallResult.transportError msg) =
          ⟨500, "Error calling Service B: " ++ msg ++ "\n"⟩) ∧
    (∀ (status : Nat) (respBody : String),
        handleRequest "POST" (Body.payload cep) (BCallResult.response status respBody) =
          ⟨status, respBody⟩) := by
  constructor
  · intro msg
    simp [handleRequest, hcep]
  · intro status respBody
    simp [handleRequest, hcep]

/-- Witness for the amended claim C8 at cep "12345678". -/
theorem c8_amended_witness :
    handleRequest "POST" (Body.payload "12345678") (BCallResult.transportError "x") =
      ⟨500, "Error calling Service B: x\n"⟩ ∧
    handleRequest "POST" (Body.payload "12345678") (BCallResult.response 503 "boom") =
      ⟨503, "boom"⟩ :=
  ⟨(c8_amended "12345678" (by decide)).1 "x",
   (c8_amended "12345678" (by decide)).2 503 "boom"⟩


theorem handler_404_of_stage1_error (cfg : Config) (cep : String)
    (resolver : Fetch ViaCEPResponse) (provider : Fetch WeatherAPIResponse)
    (hcep : validCEP cep = true) (e : String)
    (hcity : GetCityByCEP cfg.simulateCepNotFound cep resolver = Except.error e) :
    HandleWeatherRequest cfg "POST" (Body.payload cep) resolver provider =
      ⟨404, BBody.text "can not find zipcode"⟩ := by
  simp [HandleWeatherRequest, hcep, hcity]

theorem stage1_error_of_failure (sim : Bool) (cep : String)
    (resolver : Fetch ViaCEPResponse)
    (hfail : resolver = Fetch.transportError ∨
      ∃ status decoded, resolver = Fetch.response status decoded ∧
        (status ≠ 200 ∨ ∃ r, decoded = some r ∧ (r.erro = true ∨ r.localidade = ""))) :
    ∃ e, GetCityByCEP sim cep resolver = Except.error e := by
  unfold GetCityByCEP
  by_cases hs : sim = true
  · exact ⟨"CEP not found", by simp [hs]⟩
  · simp only [hs, if_false]
    rcases hfail with rfl | ⟨status, decoded, rfl, hrest⟩
    · exact ⟨"transport error", rfl⟩
    · rcases hrest with hst | ⟨r, rfl, herr⟩
      · have hb : (status != 200) = true := by simpa [bne_iff_ne] using hst
        exact ⟨"CEP not found", by simp [hb]⟩
      · by_cases hst : status = 200
        · subst hst
          rcases herr with he | hl
          · exact ⟨"CEP not found", by simp [he]⟩
          · by_cases he : r.erro = true
            · exact ⟨"CEP not found", by simp [he]⟩
            · exact ⟨"City not found", by simp [he, hl]⟩
        · have hb : (status != 200) = true := by simpa [bne_iff_ne] using hst
          exact ⟨"CEP not found", by simp [hb]⟩

/-- Claim C2: every Stage-1 failure cause (transport failure, non-200
status, error flag set, empty city name) makes the orchestrator answer
404 with exact body "can not find zipcode", uniformly and independently
of the temperature provider. -/
theorem c2_stage1_failure_uniform_404 (cfg : Config) (cep : String)
    (resolver : Fetch ViaCEPResponse) (provider : Fetch WeatherAPIResponse)
    (hcep : validCEP cep = true)
    (hfail : resolver = Fetch.transportError ∨
      ∃ status decoded, resolver = Fetch.response status decoded ∧
        (status ≠ 200 ∨ ∃ r, decoded = some r ∧ (r.erro = true ∨ r.localidade = ""))) :
    HandleWeatherRequest cfg "POST" (Body.payload cep) resolver provider =
      ⟨404, BBody.text "can not find zipcode"⟩ := by
  obtain ⟨e, he⟩ := stage1_error_of_failure cfg.simulateCepNotFound cep resolver hfail
  exact handler_404_of_stage1_error cfg cep resolver provider hcep e he

/-- Witness for C2: transport failure toward the city resolver at a
valid cep. -/
theorem c2_witness :
    HandleWeatherRequest ⟨false, false, "k"⟩ "POST" (Body.payload "29902555")
        Fetch.transportError Fetch.transportError =
      ⟨404, BBody.text "can not find zipcode"⟩ :=
  c2_stage1_failure_uniform_404 ⟨false, false, "k"⟩ "29902555" Fetch.transportError
    Fetch.transportError (by decide) (Or.inl rfl)

theorem stage2_error_of_failure (testMode : Bool) (apiKey cidade : String)
    (provider : Fetch WeatherAPIResponse)
    (htm : testMode = false)
    (hfail : apiKey = "" ∨ provider = Fetch.transportError ∨
      ∃ status decoded, provider = Fetch.response status decoded ∧
        (status ≠ 200 ∨ decoded = none)) :
    ∃ e, GetTemperature testMode apiKey cidade provider = Except.error e := by
  unfold GetTemperature
  subst htm
  rcases hfail with hk | rfl | ⟨status, decoded, rfl, hrest⟩
  · exact ⟨"WEATHER_API_KEY not set", by simp [hk]⟩
  · by_cases hk : apiKey = ""
    · exact ⟨"WEATHER_API_KEY not set", by simp [hk]⟩
    · exact ⟨"transport error", by simp [hk]⟩
  · by_cases hk : apiKey = ""
    · exact ⟨"WEATHER_API_KEY not set", by simp [hk]⟩
    · rcases hrest with hst | rfl
      · have hb : (status != 200) = true := by simpa [bne_iff_ne] using hst
        exact ⟨"Error getting weather data: status " ++ toString status, by simp [hk, hb]⟩
      · by_cases hst : status = 200
        · subst hst
          exact ⟨"decode error", by simp [hk]⟩
        · have hb : (status != 200) = true := by simpa [bne_iff_ne] using hst
          exact ⟨"Error getting weather data: status " ++ toString status, by simp [hk, hb]⟩

/-- Claim C3: with a valid cep and a successful city resolution, every
Stage-2 failure cause (missing credential outside test mode, transport
failure, non-200 status, decode failure) yields the 500 internal-error
response, never status 404 and never the body "can not find zipcode". -/
theorem c3_stage2_failure_500 (cfg : Config) (cep cidade : String)
    (resolver : Fetch ViaCEPResponse) (provider : Fetch WeatherAPIResponse)
    (hcep : validCEP cep = true)
    (hcity : GetCityByCEP cfg.simulateCepNotFound cep resolver = Except.ok cidade)
    (htm : cfg.testMode = false)
    (hfail : cfg.weatherApiKey = "" ∨ provider = Fetch.transportError ∨
      ∃ status decoded, provider = Fetch.response status decoded ∧
        (status ≠ 200 ∨ decoded = none)) :
    HandleWeatherRequest cfg "POST" (Body.payload cep) resolver provider =
        ⟨500, BBody.text "Error getting temperature\n"⟩ ∧
      (HandleWeatherRequest cfg "POST" (Body.payload cep) resolver provider).status ≠ 404 ∧
      (HandleWeatherRequest cfg "POST" (Body.payload cep) resolver provider).body ≠
        BBody.text "can not find zipcode" := by
  obtain ⟨e, he⟩ :=
    stage2_error_of_failure cfg.testMode cfg.weatherApiKey cidade provider htm hfail
  have hmain : HandleWeatherRequest cfg "POST" (Body.payload cep) resolver provider =
      ⟨500, BBody.text "Error getting temperature\n"⟩ := by
    simp [HandleWeatherRequest, hcep, hcity, he]
  refine ⟨hmain, ?_, ?_⟩
  · rw [hmain]; decide
  · rw [hmain]; decide

/-- Witness for C3: missing WEATHER_API_KEY outside test mode, with a
successful city resolution. -/
theorem c3_witness :
    HandleWeatherRequest ⟨false, false, ""⟩ "POST" (Body.payload "29902555")
        (Fetch.response 200 (some ⟨false, "Linhares"⟩)) Fetch.transportError =
      ⟨500, BBody.text "Error getting temperature\n"⟩ :=
  (c3_stage2_failure_500 ⟨false, false, ""⟩ "29902555" "Linhares"
    (Fetch.response 200 (some ⟨false, "Linhares"⟩)) Fetch.transportError
    (by decide) rfl rfl (Or.inl rfl)).1

/-- Claim C7: with the simulated-not-found flag set, every valid cep is
answered 404 "can not find zipcode" whatever the resolver outcome, the
provider outcome, and the test-mode flag; the quantification over the
provider outcome expresses that Stage 2 never influences the response. -/
theorem c7_simulate_not_found (cfg : Config) (hsim : cfg.simulateCepNotFound = true)
    (cep : String) (hcep : validCEP cep = true) :
    ∀ (resolver : Fetch ViaCEPResponse) (provider : Fetch WeatherAPIResponse),
      HandleWeatherRequest cfg "POST" (Body.payload cep) resolver provider =
        ⟨404, BBody.text "can not find zipcode"⟩ := by
  intro resolver provider
  have he : GetCityByCEP cfg.simulateCepNotFound cep resolver = Except.error "CEP not found" := by
    simp [GetCityByCEP, hsim]
  exact handler_404_of_stage1_error cfg cep resolver provider hcep _ he

/-- Witness for C7: simulated not-found with a live resolver response and
test mode on. -/
theorem c7_witness :
    HandleWeatherRequest ⟨true, true, "k"⟩ "POST" (Body.payload "29902555")
        (Fetch.response 200 (some ⟨false, "Linhares"⟩)) (Fetch.response 200 none) =
      ⟨404, BBody.text "can not find zipcode"⟩ :=
  c7_simulate_not_found ⟨true, true, "k"⟩ rfl "29902555" (by decide)
    (Fetch.response 200 (some ⟨false, "Linhares"⟩)) (Fetch.response 200 none)


theorem HandleWeatherRequest_success_inv (cfg : Config) (method : String) (body : Body)
    (resolver : Fetch ViaCEPResponse) (provider : Fetch WeatherAPIResponse)
    (w : WeatherResponse)
    (h : HandleWeatherRequest cfg method body resolver provider = ⟨200, BBody.weather w⟩) :
    ∃ cep cidade t, body = Body.payload cep ∧
      GetCityByCEP cfg.simulateCepNotFound cep resolver = Except.ok cidade ∧
      GetTemperature cfg.testMode cfg.weatherApiKey cidade provider = Except.ok t ∧
      w = ⟨cidade, t, t * 1.8 + 32, t + 273⟩ := by
  unfold HandleWeatherRequest at h
  split at h
  · simp at h
  · split at h
    · simp at h
    · simp at h
    · split at h
      · simp at h
      · rename_i cep hcep
        split at h
        · simp at h
        · rename_i cidade hcity
          split at h
          · simp at h
          · rename_i t htemp
            simp only [BResp.mk.injEq, BBody.weather.injEq] at h
            exact ⟨cep, cidade, t, rfl, hcity, htemp, h.2.symm⟩

theorem handleWeatherRequest_success_inv (cfg : Config) (method : String) (body : Body)
    (resolver : Fetch ViaCEPResponse) (provider : Fetch WeatherAPIResponse)
    (w : WeatherResponse)
    (h : handleWeatherRequest cfg method body resolver provider = ⟨200, BBody.weather w⟩) :
    ∃ cep cidade t, body = Body.payload cep ∧
      getCityByCEP cfg.simulateCepNotFound cep resolver = Except.ok cidade ∧
      getTemperature cfg.testMode cfg.weatherApiKey cidade provider = Except.ok t ∧
      w = ⟨cidade, t, t * 1.8 + 32, t + 273⟩ := by
  unfold handleWeatherRequest at h
  split at h
  · simp at h
  · split at h
    · simp at h
    · simp at h
    · split at h
      · simp at h
      · rename_i cep hcep
        split at h
        · simp at h
        · rename_i cidade hcity
          split at h
          · simp at h
          · rename_i t htemp
            simp only [BResp.mk.injEq, BBody.weather.injEq] at h
            exact ⟨cep, cidade, t, rfl, hcity, htemp, h.2.symm⟩

/-- Claim C4: every success response of either orchestrator
implementation carries temp_F = temp_C * 1.8 + 32 and temp_K =
temp_C + 273. -/
theorem c4_unit_conversions (cfg : Config) (method : String) (body : Body)
    (resolver : Fetch ViaCEPResponse) (provider : Fetch WeatherAPIResponse)
    (w : WeatherResponse)
    (h : HandleWeatherRequest cfg method body resolver provider = ⟨200, BBody.weather w⟩ ∨
         handleWeatherRequest cfg method body resolver provider = ⟨200, BBody.weather w⟩) :
    w.tempF = w.tempC * 1.8 + 32 ∧ w.tempK = w.tempC + 273 := by
  rcases h with h | h
  · obtain ⟨cep, cidade, t, -, -, -, rfl⟩ :=
      HandleWeatherRequest_success_inv cfg method body resolver provider w h
    exact ⟨rfl, rfl⟩
  · obtain ⟨cep, cidade, t, -, -, -, rfl⟩ :=
      handleWeatherRequest_success_inv cfg method body resolver provider w h
    exact ⟨rfl, rfl⟩

/-- Witness for C4: a concrete success response (temp_C = 0 gives
temp_F = 32 and temp_K = 273). -/
theorem c4_witness :
    HandleWeatherRequest ⟨false, false, "k"⟩ "POST" (Body.payload "29902555")
        (Fetch.response 200 (some ⟨false, "Linhares"⟩))
        (Fetch.response 200 (some ⟨⟨0⟩⟩)) =
      ⟨200, BBody.weather ⟨"Linhares", 0, 32, 273⟩⟩ ∧
    (⟨"Linhares", 0, 32, 273⟩ : WeatherResponse).tempF =
        (⟨"Linhares", 0, 32, 273⟩ : WeatherResponse).tempC * 1.8 + 32 ∧
    (⟨"Linhares", 0, 32, 273⟩ : WeatherResponse).tempK =
        (⟨"Linhares", 0, 32, 273⟩ : WeatherResponse).tempC + 273 := by
  have hrun : HandleWeatherRequest ⟨false, false, "k"⟩ "POST" (Body.payload "29902555")
      (Fetch.response 200 (some ⟨false, "Linhares"⟩))
      (Fetch.response 200 (some ⟨⟨0⟩⟩)) =
      ⟨200, BBody.weather ⟨"Linhares", 0, 32, 273⟩⟩ := by
    have hv : validCEP "29902555" = true := by decide
    simp [HandleWeatherRequest, GetCityByCEP, GetTemperature, hv]
  exact ⟨hrun, c4_unit_conversions ⟨false, false, "k"⟩ "POST" (Body.payload "29902555")
    (Fetch.response 200 (some ⟨false, "Linhares"⟩)) (Fetch.response 200 (some ⟨⟨0⟩⟩))
    ⟨"Linhares", 0, 32, 273⟩ (Or.inl hrun)⟩

/-- Claim C6: in test mode GetTemperature returns 25 for every city,
API key and provider outcome (the external call cannot influence the
result), and every success response in test mode carries temp_C = 25,
temp_F = 77, temp_K = 298. -/
theorem c6_test_mode_constant_temperature :
    (∀ (apiKey cidade : String) (provider : Fetch WeatherAPIResponse),
        GetTemperature true apiKey cidade provider = Except.ok 25) ∧
    (∀ (cfg : Config) (method : String) (body : Body) (resolver : Fetch ViaCEPResponse)
        (provider : Fetch WeatherAPIResponse) (w : WeatherResponse),
        cfg.testMode = true →
        HandleWeatherRequest cfg method body resolver provider = ⟨200, BBody.weather w⟩ →
        w.tempC = 25 ∧ w.tempF = 77 ∧ w.tempK = 298) := by
  constructor
  · intro apiKey cidade provider
    rfl
  · intro cfg method body resolver provider w htm h
    obtain ⟨cep, cidade, t, -, -, htemp, rfl⟩ :=
      HandleWeatherRequest_success_inv cfg method body resolver provider w h
    rw [htm] at htemp
    have ht : t = 25 := by
      simp [GetTemperature] at htemp
      exact htemp.symm
    subst ht
    refine ⟨rfl, by norm_num, by norm_num⟩

/-- Witness for C6: a concrete test-mode run. -/
theorem c6_witness :
    GetTemperature true "" "São Paulo" Fetch.transportError = Except.ok 25 ∧
    ((⟨"Linhares", 25, 77, 298⟩ : WeatherResponse).tempC = 25 ∧
     (⟨"Linhares", 25, 77, 298⟩ : WeatherResponse).tempF = 77 ∧
     (⟨"Linhares", 25, 77, 298⟩ : WeatherResponse).tempK = 298) := by
  refine ⟨c6_test_mode_constant_temperature.1 "" "São Paulo" Fetch.transportError, ?_⟩
  refine c6_test_mode_constant_temperature.2 ⟨false, true, ""⟩ "POST" (Body.payload "29902555")
    (Fetch.response 200 (some ⟨false, "Linhares"⟩)) Fetch.transportError
    ⟨"Linhares", 25, 77, 298⟩ rfl ?_
  have hv : validCEP "29902555" = true := by decide
  simp [HandleWeatherRequest, GetCityByCEP, GetTemperature, hv]
  norm_num

/-- Counterexample to claim C10: on a city-resolver response with the
error flag set and a non-empty city name, the modular orchestrator
answers 404 while the monolithic one, whose response struct has no
error field, proceeds to Stage 2 (here test mode) and answers 200. -/
theorem c10_counterexample :
    HandleWeatherRequest ⟨false, true, ""⟩ "POST" (Body.payload "12345678")
        (Fetch.response 200 (some ⟨true, "Vitória"⟩)) Fetch.transportError ≠
      handleWeatherRequest ⟨false, true, ""⟩ "POST" (Body.payload "12345678")
        (Fetch.response 200 (some ⟨true, "Vitória"⟩)) Fetch.transportError := by
  decide

theorem getTemperature_eq_GetTemperature : getTemperature = GetTemperature := rfl

theorem city_stage_agree (sim : Bool) (cep : String) (resolver : Fetch ViaCEPResponse)
    (h : ∀ (status : Nat) (r : ViaCEPResponse),
        resolver = Fetch.response status (some r) → r.erro = true → r.localidade = "") :
    (∃ e e', GetCityByCEP sim cep resolver = Except.error e ∧
             getCityByCEP sim cep resolver = Except.error e') ∨
    (∃ c, GetCityByCEP sim cep resolver = Except.ok c ∧
          getCityByCEP sim cep resolver = Except.ok c) := by
  unfold GetCityByCEP getCityByCEP
  by_cases hs : sim = true
  · left
    exact ⟨"CEP not found", "CEP not found", by simp [hs], by simp [hs]⟩
  · simp only [hs, if_false]
    match resolver with
    | Fetch.transportError =>
      left
      exact ⟨"transport error", "transport error", rfl, rfl⟩
    | Fetch.response status decoded =>
      by_cases hst : (status != 200) = true
      · left
        exact ⟨"CEP not found", "CEP not found", by simp [hst], by simp [hst]⟩
      · have hst' : (status != 200) = false := by
          cases hb : status != 200
          · rfl
          · exact absurd hb hst
        simp only [hst', Bool.false_eq_true, if_false]
        match decoded with
        | none =>
          left
          exact ⟨"decode error", "decode error", rfl, rfl⟩
        | some r =>
          by_cases he : r.erro = true
          · have hl : r.localidade = "" := h status r rfl he
            left
            exact ⟨"CEP not found", "CEP not found", by simp [he], by simp [hl]⟩
          · by_cases hl : r.localidade = ""
            · left
              exact ⟨"City not found", "CEP not found", by simp [he, hl], by simp [hl]⟩
            · right
              exact ⟨r.localidade, by simp [he, hl], by simp [hl]⟩

/-- Amended claim C10: the two orchestrator implementations agree on the
HTTP status and body for every request, configuration, and pair of
external outcomes in which the city-resolver response does not combine a
set error flag with a non-empty city name; when the flag is set alongside
a non-empty city name, the modular implementation answers 404 "can not
find zipcode" while the monolithic one, which ignores the flag, proceeds
to Stage 2. -/
theorem c10_amended (cfg : Config) (method : String) (body : Body)
    (resolver : Fetch ViaCEPResponse) (provider : Fetch WeatherAPIResponse)
    (h : ∀ (status : Nat) (r : ViaCEPResponse),
        resolver = Fetch.response status (some r) → r.erro = true → r.localidade = "") :
    HandleWeatherRequest cfg method body resolver provider =
      handleWeatherRequest cfg method body resolver provider := by
  unfold HandleWeatherRequest handleWeatherRequest
  by_cases hm : (method != "POST") = true
  · simp [hm]
  · have hm' : (method != "POST") = false := by
      cases hb : method != "POST"
      · rfl
      · exact absurd hb hm
    simp only [hm', Bool.false_eq_true, if_false]
    match body with
    | Body.readError => rfl
    | Body.malformed => rfl
    | Body.payload cep =>
      by_cases hv : validCEP cep = true
      · simp only [hv, Bool.not_true, Bool.false_eq_true, if_false]
        rw [getTemperature_eq_GetTemperature]
        rcases city_stage_agree cfg.simulateCepNotFound cep resolver h with
          ⟨e, e', h1, h2⟩ | ⟨c, h1, h2⟩
        · rw [h1, h2]
        · rw [h1, h2]
      · have hv' : validCEP cep = false := by
          cases hb : validCEP cep
          · rfl
          · exact absurd hb hv
        simp [hv']

/-- Witness for the amended claim C10: both implementations give the
same 404 on a plain not-found resolver response. -/
theorem c10_amended_witness :
    HandleWeatherRequest ⟨false, true, ""⟩ "POST" (Body.payload "12345678")
        (Fetch.response 200 (some ⟨true, ""⟩)) Fetch.transportError =
      handleWeatherRequest ⟨false, true, ""⟩ "POST" (Body.payload "12345678")
        (Fetch.response 200 (some ⟨true, ""⟩)) Fetch.transportError :=
  c10_amended ⟨false, true, ""⟩ "POST" (Body.payload "12345678")
    (Fetch.response 200 (some ⟨true, ""⟩)) Fetch.transportError
    (by intro status r hr he; cases hr; rfl)

end CepWeather
